import Mathlib

/-!
Verification of the PTP/IP client core (vendor-F specialization).

The definitions below are a shallow embedding of the Go sources:
  * ip/packets_fuji.go        — vendor-F packet variants and the handshake
                                state machine FujiInitSequence,
  * viewfinder (part_000)     — the battery and exposure-bias widget
                                renderers,
  * cmd/main.go               — the CLI exit-code logic.

Machine integers are modelled as Nat or Int with explicit truncation where
overflow matters.  The float64 arithmetic of the exposure-bias renderer
(math.Modf of x/1000) is modelled exactly over the integers: the integer
part is Int.tdiv x 1000 and the fractional part is represented by the
remainder Int.tmod x 1000 (the fraction r/1000); the comparisons f = 0,
|f| > 0.4 and signbit f become r = 0, |r| > 400 and r < 0.  For inputs
whose marker position lies inside the 19-rune ruler this integer model
agrees with the IEEE float64 evaluation at every int16 input; the only
inputs where float rounding flips the |f| > 0.4 comparison are
v = ±4400, ±5400, ..., ±15400, all of which put the marker far outside
the ruler, where the renderer aborts (index out of range) under either
reading.
-/

namespace PtpIp

/-! ## Vendor-F constants (ip/packets_fuji.go) -/

/-- DPC_Fuji_UseInitSequence: property indicating the initialisation
sequence used by the Initiator. -/
def DPC_Fuji_UseInitSequence : Nat := 0xDF01

/-- DPC_Fuji_AppVersion: property holding the minimum application version
the camera will accept. -/
def DPC_Fuji_AppVersion : Nat := 0xDF24

/-- FR_Fuji_DeviceBusy: vendor failure code, own version of DeviceBusy. -/
def FR_Fuji_DeviceBusy : Nat := 0x00002019

/-- FR_Fuji_InvalidParameter: returned when the InitCommandRequestPacket
has the wrong protocol version. -/
def FR_Fuji_InvalidParameter : Nat := 0x0000201D

/-- PM_Fuji_InitSequence: the init-sequence parameter value that completes
the handshake. -/
def PM_Fuji_InitSequence : Nat := 0x00000005

/-- PM_Fuji_AppVersion: the minimum app-version floor. -/
def PM_Fuji_AppVersion : Nat := 0x00020001

/-- PV_Fuji: the protocol version required for a valid vendor-F
InitCommandRequestPacket. -/
def PV_Fuji : Nat := 0x8F53E4F2

/-- RC_Fuji_DevicePropValue: response code to OC_GetDevicePropValue; the
first parameter of the packet holds the property value. -/
def RC_Fuji_DevicePropValue : Nat := 0x1015

/-! ## Standard PTP constants.

Modelled from the spec: the ptp and ip support packages are outside src/.
The spec names the operation response code set of a successful response as
OK and SessionAlreadyOpen, the handshake operations OpenSession,
SetDevicePropValue, GetDevicePropValue and InitiateOpenCapture, and the
data-phase markers NoDataOrDataIn and DataOut; the numeric values below
are the PTP standard code points.  No claim depends on the particular
numbers, only on the constants being the distinct codes the source names. -/

/-- RC_OK: the standard success response code. -/
def RC_OK : Nat := 0x2001

/-- RC_SessionAlreadyOpen: the standard already-open response code. -/
def RC_SessionAlreadyOpen : Nat := 0x201E

/-- OC_OpenSession operation code. -/
def OC_OpenSession : Nat := 0x1002

/-- OC_GetDevicePropValue operation code. -/
def OC_GetDevicePropValue : Nat := 0x1015

/-- OC_SetDevicePropValue operation code. -/
def OC_SetDevicePropValue : Nat := 0x1016

/-- OC_InitiateOpenCapture operation code. -/
def OC_InitiateOpenCapture : Nat := 0x101C

/-- DP_NoDataOrDataIn data-phase marker (sent as uint16 by vendor F). -/
def DP_NoDataOrDataIn : Nat := 0x0001

/-- DP_DataOut data-phase marker (sent as uint16 by vendor F). -/
def DP_DataOut : Nat := 0x0002

/-! ## Wire codec.

Modelled from the spec: ipInternal.MarshalLittleEndian is outside src/.
Per spec section 4.1 all integers are little-endian, identifiers are 16
raw bytes transmitted verbatim, and strings are UTF-16LE with a
terminating U+0000 code unit; a struct is written in declared field
order. -/

/-- The four little-endian bytes of a 32-bit value. -/
def uint32LE (n : Nat) : List Nat :=
  [n % 256, n / 256 % 256, n / 65536 % 256, n / 16777216 % 256]

/-- UTF-16LE encoding of a string given as its code units, with the
terminating U+0000 code unit. -/
def utf16leBytes : List Nat → List Nat
  | [] => [0, 0]
  | u :: us => u % 256 :: u / 256 % 256 :: utf16leBytes us

/-! ## FujiInitCommandRequestPacket (ip/packets_fuji.go) -/

/-- The vendor-F InitCommandRequestPacket: ProtocolVersion first, then the
GUID (16 raw bytes), then the FriendlyName (UTF-16 code units). -/
structure FujiInitCommandRequestPacket where
  protocolVersion : Nat
  guid : List Nat
  friendlyName : List Nat
deriving DecidableEq

/-- NewFujiInitCommandRequestPacket: fixes ProtocolVersion to PV_Fuji. -/
def NewFujiInitCommandRequestPacket (guid : List Nat) (friendlyName : List Nat) :
    FujiInitCommandRequestPacket :=
  { protocolVersion := PV_Fuji, guid := guid, friendlyName := friendlyName }

/-- Payload: MarshalLittleEndian of the struct, i.e. the fields in
declared order (ProtocolVersion, GUID, FriendlyName). -/
def FujiInitCommandRequestPacket.Payload (p : FujiInitCommandRequestPacket) : List Nat :=
  uint32LE p.protocolVersion ++ p.guid ++ utf16leBytes p.friendlyName

/-- The 16 bytes of the GUID ada5485d-87b2-7f0b-d3d5-ded00278a8c0; the
canonical string form of a google/uuid value is the straight hex of its
bytes in order. -/
def exampleGUID : List Nat :=
  [0xAD, 0xA5, 0x48, 0x5D, 0x87, 0xB2, 0x7F, 0x0B,
   0xD3, 0xD5, 0xDE, 0xD0, 0x02, 0x78, 0xA8, 0xC0]

/-! ## Fuji operation request and response packets (ip/packets_fuji.go) -/

/-- The vendor-F OperationRequestPacket: untagged, 16-bit DataPhaseInfo,
operation code, transaction id and five 32-bit parameters (unset
parameters are zero, as in Go). -/
structure FujiOperationRequestPacket where
  dataPhaseInfo : Nat
  operationCode : Nat
  transactionID : Nat
  parameter1 : Nat := 0
  parameter2 : Nat := 0
  parameter3 : Nat := 0
  parameter4 : Nat := 0
  parameter5 : Nat := 0
deriving DecidableEq

/-- NewFujiOpenSessionCommand tid sid. -/
def NewFujiOpenSessionCommand (tid : Nat) (sid : Nat) : FujiOperationRequestPacket :=
  { dataPhaseInfo := DP_NoDataOrDataIn
    operationCode := OC_OpenSession
    transactionID := tid
    parameter1 := sid }

/-- The vendor-F OperationResponsePacket without parameters. -/
structure FujiOperationResponsePacket where
  dataPhase : Nat
  operationResponseCode : Nat
  transactionID : Nat
deriving DecidableEq

/-- WasSuccessfull for the plain response variant. -/
def FujiOperationResponsePacket.WasSuccessfull (p : FujiOperationResponsePacket) : Bool :=
  p.operationResponseCode == RC_OK ||
    p.operationResponseCode == RC_SessionAlreadyOpen ||
    p.operationResponseCode == RC_Fuji_DevicePropValue

/-- The vendor-F OperationResponsePacket with one parameter. -/
structure FujiOperationResponsePacketOne where
  dataPhase : Nat
  operationResponseCode : Nat
  transactionID : Nat
  parameter1 : Nat
deriving DecidableEq

/-- WasSuccessfull for the one-parameter response variant. -/
def FujiOperationResponsePacketOne.WasSuccessfull (p : FujiOperationResponsePacketOne) : Bool :=
  p.operationResponseCode == RC_OK ||
    p.operationResponseCode == RC_SessionAlreadyOpen ||
    p.operationResponseCode == RC_Fuji_DevicePropValue

/-! ## Client model and FujiInitSequence (ip/packets_fuji.go).

The Client type itself (ip/client.go) is outside src/.  Modelled from the
spec: the client owns a monotonically increasing 32-bit transaction
identifier; SendPacketToCmdDataConn writes one packet to the Command/Data
connection; WaitForPacketFromCmdDataConn reads the next incoming packet
into the caller-supplied response shape.  A run of the handshake is
modelled against a mock responder script: a list of incoming responses,
each carrying the fields a read can fill (the one-parameter read also
consumes parameter1).  The run records the trace of connection events
(sends, reads, closes); the state machine itself never closes the
sockets, which the trace makes checkable. -/

/-- A response provided by the mock responder. -/
structure MockResponse where
  dataPhase : Nat
  code : Nat
  tid : Nat
  param1 : Nat
deriving DecidableEq

/-- Reading into a plain FujiOperationResponsePacket. -/
def readPlain (r : MockResponse) : FujiOperationResponsePacket :=
  { dataPhase := r.dataPhase, operationResponseCode := r.code, transactionID := r.tid }

/-- Reading into a FujiOperationResponsePacketOne. -/
def readOne (r : MockResponse) : FujiOperationResponsePacketOne :=
  { dataPhase := r.dataPhase, operationResponseCode := r.code, transactionID := r.tid
    parameter1 := r.param1 }

/-- An event on the Command/Data connection. -/
inductive ClientEvent where
  | send (pkt : FujiOperationRequestPacket)
  | read
  | closeConn
deriving DecidableEq

/-- The errors FujiInitSequence can return.  `reason c` stands for the Go
errors.New(ptp.OperationResponseCodeAsString(c)): modelled from the spec,
the canonical-name mapping lives in the ptp package outside src/, so the
error is represented by the response code it names.  `transport` stands
for a failed read (the mock script was exhausted). -/
inductive FujiErr where
  | reason (code : Nat)
  | transport
deriving DecidableEq

/-- ReasonAsError for the plain response variant. -/
def FujiOperationResponsePacket.ReasonAsError (p : FujiOperationResponsePacket) : FujiErr :=
  .reason p.operationResponseCode

/-- ReasonAsError for the one-parameter response variant. -/
def FujiOperationResponsePacketOne.ReasonAsError (p : FujiOperationResponsePacketOne) : FujiErr :=
  .reason p.operationResponseCode

/-- incrementTransactionId: the transaction identifier is a uint32. -/
def incrementTransactionId (t : Nat) : Nat := (t + 1) % 4294967296

/-- The OpenSession request sent first (NewFujiOpenSessionCommand with
session id 0x00000001). -/
def openSessionPacket (t : Nat) : FujiOperationRequestPacket :=
  NewFujiOpenSessionCommand t 0x00000001

/-- The SetDevicePropValue(DPC_Fuji_UseInitSequence) request. -/
def setInitSeqPacket (t : Nat) : FujiOperationRequestPacket :=
  { dataPhaseInfo := DP_NoDataOrDataIn
    operationCode := OC_SetDevicePropValue
    transactionID := t
    parameter1 := DPC_Fuji_UseInitSequence }

/-- The DataOut packet carrying PM_Fuji_InitSequence. -/
def setInitSeqDataPacket (t : Nat) : FujiOperationRequestPacket :=
  { dataPhaseInfo := DP_DataOut
    operationCode := OC_SetDevicePropValue
    transactionID := t
    parameter1 := PM_Fuji_InitSequence }

/-- The GetDevicePropValue(DPC_Fuji_AppVersion) request. -/
def getAppVersionPacket (t : Nat) : FujiOperationRequestPacket :=
  { dataPhaseInfo := DP_NoDataOrDataIn
    operationCode := OC_GetDevicePropValue
    transactionID := t
    parameter1 := DPC_Fuji_AppVersion }

/-- The SetDevicePropValue(DPC_Fuji_AppVersion) request of the echo. -/
def setAppVersionPacket (t : Nat) : FujiOperationRequestPacket :=
  { dataPhaseInfo := DP_NoDataOrDataIn
    operationCode := OC_SetDevicePropValue
    transactionID := t
    parameter1 := DPC_Fuji_AppVersion }

/-- The DataOut packet of the echo, carrying the app version the camera
reported. -/
def setAppVersionDataPacket (t : Nat) (v : Nat) : FujiOperationRequestPacket :=
  { dataPhaseInfo := DP_DataOut
    operationCode := OC_SetDevicePropValue
    transactionID := t
    parameter1 := v }

/-- The InitiateOpenCapture request. -/
def initiateOpenCapturePacket (t : Nat) : FujiOperationRequestPacket :=
  { dataPhaseInfo := DP_NoDataOrDataIn
    operationCode := OC_InitiateOpenCapture
    transactionID := t }

instance : DecidableEq (Except FujiErr Unit) := fun x y =>
  match x, y with
  | .ok (), .ok () => isTrue rfl
  | .error a, .error b =>
    if h : a = b then isTrue (by rw [h]) else isFalse (fun he => by cases he; exact h rfl)
  | .ok _, .error _ => isFalse (fun he => by cases he)
  | .error _, .ok _ => isFalse (fun he => by cases he)

/-- The outcome of a FujiInitSequence run: the returned error (or ok),
the client transaction id when the function returns, and the trace of
Command/Data connection events. -/
structure InitSeqResult where
  outcome : Except FujiErr Unit
  transactionId : Nat
  trace : List ClientEvent
deriving DecidableEq

/-- FujiInitSequence, run against a mock responder script.  The control
flow mirrors ip/packets_fuji.go line by line: open a session; set
DPC_Fuji_UseInitSequence (request plus DataOut packet); read the current
minimum app version (a one-parameter response followed by a plain one);
echo it back (request plus DataOut packet); initiate open capture.  Every
unsuccessful response makes the function return ReasonAsError at once;
the transaction id is incremented after each consumed successful exchange
except the last; the sockets are never closed here.  An exhausted script
models a failed read. -/
def FujiInitSequence (t0 : Nat) (script : List MockResponse) : InitSeqResult :=
  let e1 : List ClientEvent := [.send (openSessionPacket t0), .read]
  match script with
  | [] => ⟨.error .transport, t0, e1⟩
  | r1 :: s1 =>
    if (readPlain r1).WasSuccessfull then
      let t1 := incrementTransactionId t0
      let e2 := e1 ++ [.send (setInitSeqPacket t1), .send (setInitSeqDataPacket t1), .read]
      match s1 with
      | [] => ⟨.error .transport, t1, e2⟩
      | r2 :: s2 =>
        if (readPlain r2).WasSuccessfull then
          let t2 := incrementTransactionId t1
          let e3 := e2 ++ [.send (getAppVersionPacket t2), .read]
          match s2 with
          | [] => ⟨.error .transport, t2, e3⟩
          | r3 :: s3 =>
            if (readOne r3).WasSuccessfull then
              let e4 := e3 ++ [.read]
              match s3 with
              | [] => ⟨.error .transport, t2, e4⟩
              | r4 :: s4 =>
                if (readPlain r4).WasSuccessfull then
                  let t3 := incrementTransactionId t2
                  let e5 := e4 ++ [.send (setAppVersionPacket t3),
                    .send (setAppVersionDataPacket t3 (readOne r3).parameter1), .read]
                  match s4 with
                  | [] => ⟨.error .transport, t3, e5⟩
                  | r5 :: s5 =>
                    if (readPlain r5).WasSuccessfull then
                      let t4 := incrementTransactionId t3
                      let e6 := e5 ++ [.send (initiateOpenCapturePacket t4), .read]
                      match s5 with
                      | [] => ⟨.error .transport, t4, e6⟩
                      | r6 :: _ =>
                        if (readPlain r6).WasSuccessfull then
                          ⟨.ok (), t4, e6⟩
                        else
                          ⟨.error ((readPlain r6).ReasonAsError), t4, e6⟩
                    else ⟨.error ((readPlain r5).ReasonAsError), t3, e5⟩
                else ⟨.error ((readPlain r4).ReasonAsError), t2, e4⟩
            else ⟨.error ((readOne r3).ReasonAsError), t2, e3⟩
        else ⟨.error ((readPlain r2).ReasonAsError), t1, e2⟩
    else ⟨.error ((readPlain r1).ReasonAsError), t0, e1⟩

/-! ## Viewfinder widgets (viewfinder sources, src/unnamed/part_000).

A widget owns a current colour; reset-colour restores the default.
Modelled from the spec: NewWhiteGlyphWidget (outside src/) constructs a
widget whose default colour is white.  A draw call is modelled as the
list of DrawString events it performs, each tagged with the colour in
effect; pen movement is not observable in the claims and is not
modelled. -/

/-- An RGB colour. -/
abbrev Colour := Nat × Nat × Nat

/-- The default colour of a white glyph widget. -/
def defaultColour : Colour := (255, 255, 255)

/-- truncation of an int64 value to int16, as Go int16(val). -/
def toInt16 (v : Int) : Int := (v + 32768) % 65536 - 32768

/-- getBias: the 19-rune exposure-bias ruler. -/
def getBias : List Char := ['6', '.', '.', '5', '.', '.', '4', '.', '.', '0',
  '.', '.', '1', '.', '.', '2', '.', '.', '3']

/-- The 19-rune marker row with a single glyph at position pos. -/
def markerOnly (pos : Nat) (c : Char) : List Char :=
  (List.replicate 19 ' ').set pos c

/-- The result of one widget draw call: the DrawString events performed
(in order, with the colour in effect), and whether the draw aborted in a
runtime panic (rune-slice index out of range). -/
structure DrawResult where
  events : List (Colour × List Char)
  panicked : Bool
deriving DecidableEq

/-- The fractional-stop offset computed by the renderer, as a function of
the fractional-part numerator r (the fraction f is r/1000 exactly):
default 0; when f is nonzero, 1, or 2 when |f| > 0.4, negated when f is
negative (signbit). -/
def fujiFStop (r : Int) : Int :=
  if r = 0 then 0
  else
    let m : Int := if 400 < |r| then 2 else 1
    if r < 0 then -m else m

/-- The marker position computed by the renderer: zero mark 9 plus the
fractional-stop offset plus the integer part times the 3 runes per
stop. -/
def fujiBiasPos (x : Int) : Int :=
  9 + fujiFStop (Int.tmod x 1000) + Int.tdiv x 1000 * 3

/-- drawFujiExposureBiasCompensation.  The float64 arithmetic
math.Modf(float64(int16(val)) / 1000) is modelled exactly over Int as
described in the header: integer part Int.tdiv x 1000, fractional part
r/1000 with r = Int.tmod x 1000, so f = 0, |f| > 0.4 and signbit f become
r = 0, 400 < |r| and r < 0.  The control flow mirrors the source: draw
the leading plus-minus icon in the reset colour; compute the marker
position; when f = 0 swap the ruler glyph at that index for the
placeholder rune (a panic when the index is outside the 19-rune ruler);
when on zero draw the ruler grey then the placeholder and marker rows
white; otherwise draw the ruler in the current colour and the marker row
yellow (again a panic when the index is out of range). -/
def drawFujiExposureBiasCompensation (val : Int) : DrawResult :=
  let x := toInt16 val
  let r := Int.tmod x 1000
  let pos := fujiBiasPos x
  let plusMinus : Colour × List Char := (defaultColour, ['+', '-'])
  if r = 0 then
    if pos < 0 ∨ 19 ≤ pos then
      { events := [plusMinus], panicked := true }
    else
      let bias := getBias.set pos.toNat '"'
      if Int.tdiv x 1000 = 0 then
        { events := [plusMinus, ((100, 100, 100), bias),
            (defaultColour, markerOnly pos.toNat '"'),
            (defaultColour, markerOnly pos.toNat '!')]
          panicked := false }
      else
        { events := [plusMinus, (defaultColour, bias),
            ((255, 185, 10), markerOnly pos.toNat '!')]
          panicked := false }
  else
    if pos < 0 ∨ 19 ≤ pos then
      { events := [plusMinus, (defaultColour, getBias)], panicked := true }
    else
      { events := [plusMinus, (defaultColour, getBias),
          ((255, 185, 10), markerOnly pos.toNat '!')]
        panicked := false }

/-- The integer part of modf(int16(v)/1000), stated as the claims state
it. -/
def modfIntPart (x : Int) : Int := Int.tdiv x 1000

/-- The numerator over 1000 of the fractional part of modf(int16(v)/1000):
the fraction f equals modfFracNum x / 1000 exactly. -/
def modfFracNum (x : Int) : Int := Int.tmod x 1000

/-- The third-stop offset as the claims state it: 0 when f = 0, ±1 when
0 < |f| ≤ 0.4, ±2 when |f| > 0.4, sign inherited from f. -/
def claimThirdStop (x : Int) : Int :=
  if modfFracNum x = 0 then 0
  else if |modfFracNum x| ≤ 400 then (if modfFracNum x < 0 then -1 else 1)
  else (if modfFracNum x < 0 then -2 else 2)

/-- The marker position as the claims state it: 9 + thirdStop + i * 3. -/
def claimMarkerPos (x : Int) : Int := 9 + claimThirdStop x + 3 * modfIntPart x

/-- The on-zero condition: i = 0 and f = 0. -/
def claimOnZero (x : Int) : Prop := modfIntPart x = 0 ∧ modfFracNum x = 0

instance (x : Int) : Decidable (claimOnZero x) := by
  unfold claimOnZero; infer_instance

/-! ## Battery widget (src/unnamed/part_000).

The FujiBatteryLevel constants live in the ip package outside src/.
Modelled from the spec: the 3-bar battery level is an enum with the
distinct codes One, Two and Full. -/

/-- BAT_Fuji_3bOne. -/
def BAT_Fuji_3bOne : Int := 1

/-- BAT_Fuji_3bTwo. -/
def BAT_Fuji_3bTwo : Int := 2

/-- BAT_Fuji_3bFull. -/
def BAT_Fuji_3bFull : Int := 3

/-- drawFujiBattery3Bars: takes the widget's current colour (the function
never resets it), switches on the level — One sets the colour to red and
draws the one-bar glyphs, Two and Full draw their glyphs without touching
the colour, any other value draws the empty string — and returns the
colour the widget is left with together with the draw events. -/
def drawFujiBattery3Bars (current : Colour) (val : Int) : Colour × List (Colour × List Char) :=
  if val = BAT_Fuji_3bOne then
    ((255, 0, 0), [((255, 0, 0), ['b', 'a', 'U'])])
  else if val = BAT_Fuji_3bTwo then
    (current, [(current, ['b', 'C', 'T'])])
  else if val = BAT_Fuji_3bFull then
    (current, [(current, ['B', 'A', 'T'])])
  else
    (current, [(current, [])])

/-! ## CLI exit codes (cmd/main.go).

Flag parsing, configuration loading, client construction and Dial are
outside src/; they are abstracted as the boolean inputs of the exit-code
function, which mirrors main() itself: fewer than two entries in os.Args
(no arguments) prints usage and exits 1; the help flag with arguments
present exits 0 after usage; the version flag exits 0 after printing;
a failed ip.NewClient exits 4; a failed Dial exits 5; otherwise main
runs to completion and exits 0. -/

/-- The exit code of main, as a function of the length of os.Args and the
outcomes of the collaborators. -/
def mainExitCode (argCount : Nat) (help version clientOk dialOk : Bool) : Nat :=
  if argCount < 2 then 1
  else if help then 0
  else if version then 0
  else if !clientOk then 4
  else if !dialOk then 5
  else 0

/-! ## Helper lemmas -/

/-- Truncation to int16 is the identity on the int16 range. -/
theorem toInt16_eq_self {v : Int} (hlo : -32768 ≤ v) (hhi : v ≤ 32767) : toInt16 v = v := by
  unfold toInt16
  omega

/-- The truncated remainder of a nonpositive value by 1000 lies in
(-1000, 0]. -/
theorem tmod_thousand_nonpos {v : Int} (h : v < 0) :
    -1000 < Int.tmod v 1000 ∧ Int.tmod v 1000 ≤ 0 := by
  match v with
  | .ofNat m => exact absurd h (by simp only [Int.ofNat_eq_coe]; omega)
  | .negSucc m =>
    have hmod : Int.tmod (Int.negSucc m) 1000 = -(Int.ofNat ((m + 1) % 1000)) := rfl
    have hlt : (m + 1) % 1000 < 1000 := Nat.mod_lt _ (by omega)
    rw [hmod]
    simp only [Int.ofNat_eq_coe]
    omega

/-- The truncated remainder of a nonnegative value by 1000 lies in
[0, 1000). -/
theorem tmod_thousand_nonneg {v : Int} (h : 0 ≤ v) :
    0 ≤ Int.tmod v 1000 ∧ Int.tmod v 1000 < 1000 :=
  ⟨Int.tmod_nonneg 1000 h, Int.tmod_lt_of_pos v (by omega)⟩

/-- The renderer's fractional-stop computation agrees with the third-stop
rule as the spec states it. -/
theorem fujiFStop_eq_claimThirdStop (x : Int) :
    fujiFStop (Int.tmod x 1000) = claimThirdStop x := by
  simp only [fujiFStop, claimThirdStop, modfFracNum]
  rcases abs_cases (Int.tmod x 1000) with ⟨he, hs⟩ | ⟨he, hs⟩ <;> rw [he] <;>
    split_ifs <;> omega

/-- The renderer's marker position agrees with the position formula as
the spec states it. -/
theorem fujiBiasPos_eq_claimMarkerPos (x : Int) : fujiBiasPos x = claimMarkerPos x := by
  unfold fujiBiasPos claimMarkerPos modfIntPart
  rw [fujiFStop_eq_claimThirdStop]
  ring

/-! ## Claims C2 and C3: wire layout and the success predicate -/

/-- C2: for every GUID g (16 bytes) and every friendly name s, the
payload of NewFujiInitCommandRequestPacket(g, s) serializes
ProtocolVersion first, then the GUID, then the FriendlyName, with
ProtocolVersion always 0x8F53E4F2; for the GUID
ada5485d-87b2-7f0b-d3d5-ded00278a8c0 the payload begins with the 20 bytes
F2 E4 53 8F AD A5 48 5D 87 B2 7F 0B D3 D5 DE D0 02 78 A8 C0. -/
theorem claimC2_init_command_payload_layout :
    (∀ (g s : List Nat), g.length = 16 →
      (NewFujiInitCommandRequestPacket g s).protocolVersion = 0x8F53E4F2 ∧
      (NewFujiInitCommandRequestPacket g s).Payload.take 4 = uint32LE PV_Fuji ∧
      ((NewFujiInitCommandRequestPacket g s).Payload.drop 4).take 16 = g ∧
      (NewFujiInitCommandRequestPacket g s).Payload.drop 20 = utf16leBytes s) ∧
    (∀ s : List Nat, (NewFujiInitCommandRequestPacket exampleGUID s).Payload.take 20 =
      [0xF2, 0xE4, 0x53, 0x8F, 0xAD, 0xA5, 0x48, 0x5D, 0x87, 0xB2, 0x7F, 0x0B,
       0xD3, 0xD5, 0xDE, 0xD0, 0x02, 0x78, 0xA8, 0xC0]) := by
  have hlen : (uint32LE PV_Fuji).length = 4 := rfl
  constructor
  · intro g s hg
    refine ⟨rfl, ?_, ?_, ?_⟩
    · show (uint32LE PV_Fuji ++ (g ++ utf16leBytes s)).take 4 = uint32LE PV_Fuji
      exact List.take_left' hlen
    · show ((uint32LE PV_Fuji ++ (g ++ utf16leBytes s)).drop 4).take 16 = g
      rw [List.drop_left' hlen, List.take_left' hg]
    · show (uint32LE PV_Fuji ++ (g ++ utf16leBytes s)).drop 20 = utf16leBytes s
      rw [← List.append_assoc]
      exact List.drop_left' (by rw [List.length_append, hlen, hg])
  · intro s
    show (uint32LE PV_Fuji ++ (exampleGUID ++ utf16leBytes s)).take 20 =
      [0xF2, 0xE4, 0x53, 0x8F, 0xAD, 0xA5, 0x48, 0x5D, 0x87, 0xB2, 0x7F, 0x0B,
       0xD3, 0xD5, 0xDE, 0xD0, 0x02, 0x78, 0xA8, 0xC0]
    rw [← List.append_assoc, List.take_left' (by rfl)]
    rfl

/-- C2 witness: the general layout theorem applied to the concrete GUID
and the empty friendly name. -/
theorem claimC2_witness :
    exampleGUID.length = 16 ∧
    ((NewFujiInitCommandRequestPacket exampleGUID []).protocolVersion = 0x8F53E4F2 ∧
     (NewFujiInitCommandRequestPacket exampleGUID []).Payload.take 4 = uint32LE PV_Fuji ∧
     ((NewFujiInitCommandRequestPacket exampleGUID []).Payload.drop 4).take 16 = exampleGUID ∧
     (NewFujiInitCommandRequestPacket exampleGUID []).Payload.drop 20 = utf16leBytes []) :=
  ⟨by decide, claimC2_init_command_payload_layout.1 exampleGUID [] (by decide)⟩

/-- C3: for both Fuji operation response variants, WasSuccessfull holds
exactly when the operation response code is RC_OK, RC_SessionAlreadyOpen
or RC_Fuji_DevicePropValue (0x1015). -/
theorem claimC3_was_successfull_code_set :
    (∀ p : FujiOperationResponsePacket,
      p.WasSuccessfull = true ↔
        (p.operationResponseCode = RC_OK ∨ p.operationResponseCode = RC_SessionAlreadyOpen ∨
         p.operationResponseCode = RC_Fuji_DevicePropValue)) ∧
    (∀ p : FujiOperationResponsePacketOne,
      p.WasSuccessfull = true ↔
        (p.operationResponseCode = RC_OK ∨ p.operationResponseCode = RC_SessionAlreadyOpen ∨
         p.operationResponseCode = RC_Fuji_DevicePropValue)) := by
  constructor
  · intro p
    simp [FujiOperationResponsePacket.WasSuccessfull, or_assoc]
  · intro p
    simp [FujiOperationResponsePacketOne.WasSuccessfull, or_assoc]

/-! ## Claims C5, C6, C7: the exposure-bias renderer -/

/-- C5 (amended): for every exposure-bias value v in int16 range whose
computed marker position 9 + thirdStop + i*3 lies within the 19-rune
ruler, the draw completes, and when the marker is not on zero its final
DrawString places the marker glyph at that position in yellow
(255, 185, 10); thirdStop is 0 when f = 0, ±1 when 0 < |f| ≤ 0.4 and ±2
when |f| > 0.4, sign inherited from f, for (i, f) = modf(int16(v)/1000).
For positions outside the ruler the draw aborts without placing a marker
(the unamended claim fails there, see the counterexample). -/
theorem claimC5_exposure_bias_marker (v : Int) (hlo : -32768 ≤ v) (hhi : v ≤ 32767)
    (hplo : 0 ≤ claimMarkerPos v) (hphi : claimMarkerPos v ≤ 18) :
    (drawFujiExposureBiasCompensation v).panicked = false ∧
    (¬ claimOnZero v →
      (drawFujiExposureBiasCompensation v).events.getLast? =
        some ((255, 185, 10), markerOnly (claimMarkerPos v).toNat '!')) := by
  have hx : toInt16 v = v := toInt16_eq_self hlo hhi
  have hp := fujiBiasPos_eq_claimMarkerPos v
  simp only [drawFujiExposureBiasCompensation, hx, hp]
  split_ifs with h1 h2 h3 h4
  · exact absurd h2 (by omega)
  · refine ⟨rfl, fun hno => absurd ⟨h3, h1⟩ hno⟩
  · exact ⟨rfl, fun _ => rfl⟩
  · exact absurd h4 (by omega)
  · exact ⟨rfl, fun _ => rfl⟩

/-- C5 counterexample: the unamended claim places a marker for every v;
at v = 4000 the computed position is 21, outside the 19-rune ruler, and
the draw aborts in the rune-slice write before drawing the ruler or any
marker. -/
theorem claimC5_counterexample :
    claimMarkerPos 4000 = 21 ∧
    drawFujiExposureBiasCompensation 4000 =
      { events := [(defaultColour, ['+', '-'])], panicked := true } := by
  constructor
  · decide
  · decide

/-- C5 witness: the instances of the claim, v = +333 puts the yellow
marker at index 10 and v = -1666 puts it at index 4. -/
theorem claimC5_witness :
    ((drawFujiExposureBiasCompensation 333).panicked = false ∧
     (drawFujiExposureBiasCompensation 333).events.getLast? =
       some ((255, 185, 10), markerOnly 10 '!')) ∧
    ((drawFujiExposureBiasCompensation (-1666)).panicked = false ∧
     (drawFujiExposureBiasCompensation (-1666)).events.getLast? =
       some ((255, 185, 10), markerOnly 4 '!')) := by
  constructor
  · have h := claimC5_exposure_bias_marker 333 (by decide) (by decide) (by decide) (by decide)
    have h2 := h.2 (by decide)
    have e : (claimMarkerPos 333).toNat = 10 := by decide
    rw [e] at h2
    exact ⟨h.1, h2⟩
  · have h := claimC5_exposure_bias_marker (-1666) (by decide) (by decide) (by decide) (by decide)
    have h2 := h.2 (by decide)
    have e : (claimMarkerPos (-1666)).toNat = 4 := by decide
    rw [e] at h2
    exact ⟨h.1, h2⟩

/-- C6: for v = 0 the marker position is exactly 9; the whole ruler (with
the placeholder rune swapped in at index 9) is drawn in grey
(100, 100, 100), and then the zero glyph and the marker are drawn in
white (255, 255, 255) on top; the leading plus-minus icon pair precedes
them in the widget's reset colour. -/
theorem claimC6_zero_bias_grey_white :
    claimMarkerPos 0 = 9 ∧
    drawFujiExposureBiasCompensation 0 =
      { events := [(defaultColour, ['+', '-']),
          ((100, 100, 100), getBias.set 9 '"'),
          ((255, 255, 255), markerOnly 9 '"'),
          ((255, 255, 255), markerOnly 9 '!')]
        panicked := false } := by
  constructor
  · decide
  · decide

/-- C7 (amended): for every v in int16 range with |v| ≥ 3000 and
divisible by 1000, the third-stop offset is 0 and the marker position is
9 + 3·(v/1000), i.e. 9 ± (|v|/1000)·3; the draw completes and writes the
marker at that index of the 19-rune ruler only for v = ±3000 (the sole
such values whose position fits the ruler), while for |v| ≥ 4000 the
position lies outside the ruler and the draw aborts (the unamended claim
fails there, see the counterexample). -/
theorem claimC7_whole_stop_positions (v : Int) (hlo : -32768 ≤ v) (hhi : v ≤ 32767)
    (hdvd : (1000 : Int) ∣ v) (hmag : 3000 ≤ |v|) :
    claimThirdStop v = 0 ∧
    claimMarkerPos v = 9 + 3 * modfIntPart v ∧
    ((v = 3000 ∨ v = -3000) →
      (drawFujiExposureBiasCompensation v).panicked = false ∧
      (drawFujiExposureBiasCompensation v).events.getLast? =
        some ((255, 185, 10), markerOnly (9 + 3 * modfIntPart v).toNat '!')) ∧
    (4000 ≤ |v| → (drawFujiExposureBiasCompensation v).panicked = true) := by
  have hmod : Int.tmod v 1000 = 0 := Int.tmod_eq_zero_of_dvd hdvd
  have hts : claimThirdStop v = 0 := by
    simp [claimThirdStop, modfFracNum, hmod]
  have hpos : claimMarkerPos v = 9 + 3 * modfIntPart v := by
    unfold claimMarkerPos
    rw [hts]
    ring
  refine ⟨hts, hpos, ?_, ?_⟩
  · rintro (rfl | rfl)
    · exact ⟨by decide, by decide⟩
    · exact ⟨by decide, by decide⟩
  · intro h4
    have hx : toInt16 v = v := toInt16_eq_self hlo hhi
    have hp := fujiBiasPos_eq_claimMarkerPos v
    have hiv : 1000 * Int.tdiv v 1000 + Int.tmod v 1000 = v := Int.tdiv_add_tmod v 1000
    have hout : claimMarkerPos v < 0 ∨ 19 ≤ claimMarkerPos v := by
      have hi : claimMarkerPos v = 9 + 3 * Int.tdiv v 1000 := hpos
      rcases abs_cases v with ⟨he, _⟩ | ⟨he, _⟩ <;> rw [he] at h4 <;> omega
    simp only [drawFujiExposureBiasCompensation, hx, hp, hmod, if_pos rfl, if_pos hout]
    simp

/-- C7 counterexample: v = 4000 satisfies the unamended hypotheses
(|v| ≥ 3000, divisible by 1000) but the draw does not complete: the
computed position 21 is outside the 19-rune ruler and the rune-slice
write aborts. -/
theorem claimC7_counterexample :
    (1000 : Int) ∣ 4000 ∧ (3000 : Int) ≤ |(4000 : Int)| ∧
    (drawFujiExposureBiasCompensation 4000).panicked = true := by
  refine ⟨⟨4, by norm_num⟩, by decide, by decide⟩

/-- C7 witness: at v = 3000 the marker is written at index 18 = 9 + 3·3;
at v = -4000 the draw aborts. -/
theorem claimC7_witness :
    ((drawFujiExposureBiasCompensation 3000).panicked = false ∧
     (drawFujiExposureBiasCompensation 3000).events.getLast? =
       some ((255, 185, 10), markerOnly 18 '!')) ∧
    (drawFujiExposureBiasCompensation (-4000)).panicked = true := by
  constructor
  · have h := claimC7_whole_stop_positions 3000 (by decide) (by decide)
      ⟨3, by norm_num⟩ (by decide)
    have h3 := (h.2.2.1 (Or.inl rfl))
    have e : (9 + 3 * modfIntPart 3000).toNat = 18 := by decide
    rw [e] at h3
    exact h3
  · have h := claimC7_whole_stop_positions (-4000) (by decide) (by decide)
      ⟨-4, by norm_num⟩ (by decide)
    exact h.2.2.2 (by decide)

/-! ## Claim C8: the 3-bar battery widget -/

/-- C8 (amended): on every draw call of the 3-bar battery widget, level
One sets the widget colour to red (255, 0, 0) before drawing its glyphs;
levels Two and Full draw their glyphs in the widget's current colour
without changing it — which is the default colour only while no earlier
One draw has set red, since drawFujiBattery3Bars never resets the colour
(the unamended claim fails after a One draw, see the counterexample). -/
theorem claimC8_battery_colours (c : Colour) :
    drawFujiBattery3Bars c BAT_Fuji_3bOne =
      ((255, 0, 0), [((255, 0, 0), ['b', 'a', 'U'])]) ∧
    drawFujiBattery3Bars c BAT_Fuji_3bTwo = (c, [(c, ['b', 'C', 'T'])]) ∧
    drawFujiBattery3Bars c BAT_Fuji_3bFull = (c, [(c, ['B', 'A', 'T'])]) := by
  refine ⟨rfl, ?_, ?_⟩ <;>
    simp [drawFujiBattery3Bars, BAT_Fuji_3bOne, BAT_Fuji_3bTwo, BAT_Fuji_3bFull]

/-- C8 counterexample: starting from the widget default colour, a draw of
level One followed by a draw of level Full renders the Full glyphs in red
(255, 0, 0), not in the widget's default colour, because the draw
function never resets the colour. -/
theorem claimC8_counterexample :
    (drawFujiBattery3Bars
        (drawFujiBattery3Bars defaultColour BAT_Fuji_3bOne).1 BAT_Fuji_3bFull).2 =
      [((255, 0, 0), ['B', 'A', 'T'])] ∧
    ((255, 0, 0) : Colour) ≠ defaultColour := by
  constructor
  · rfl
  · decide

/-! ## Claim C9: CLI exit codes -/

/-- C9: the CLI exits 0 on success, including the help and version paths
when arguments are present; 1 when invoked with no arguments; 4 when
client construction fails; and 5 when Dial fails. -/
theorem claimC9_cli_exit_codes :
    (∀ (n : Nat) (h ver c d : Bool), n < 2 → mainExitCode n h ver c d = 1) ∧
    (∀ (n : Nat) (ver c d : Bool), 2 ≤ n → mainExitCode n true ver c d = 0) ∧
    (∀ (n : Nat) (c d : Bool), 2 ≤ n → mainExitCode n false true c d = 0) ∧
    (∀ (n : Nat) (d : Bool), 2 ≤ n → mainExitCode n false false false d = 4) ∧
    (∀ n : Nat, 2 ≤ n → mainExitCode n false false true false = 5) ∧
    (∀ n : Nat, 2 ≤ n → mainExitCode n false false true true = 0) := by
  refine ⟨?_, ?_, ?_, ?_, ?_, ?_⟩
  · intro n h ver c d hn
    simp [mainExitCode, hn]
  · intro n ver c d hn
    simp [mainExitCode, Nat.not_lt.mpr hn]
  · intro n c d hn
    simp [mainExitCode, Nat.not_lt.mpr hn]
  · intro n d hn
    simp [mainExitCode, Nat.not_lt.mpr hn]
  · intro n hn
    simp [mainExitCode, Nat.not_lt.mpr hn]
  · intro n hn
    simp [mainExitCode, Nat.not_lt.mpr hn]

/-- C9 witness: the exit-code theorem applied at concrete argument
counts and collaborator outcomes. -/
theorem claimC9_witness :
    mainExitCode 1 false false true true = 1 ∧
    mainExitCode 2 true false true true = 0 ∧
    mainExitCode 2 false true true true = 0 ∧
    mainExitCode 2 false false false true = 4 ∧
    mainExitCode 2 false false true false = 5 ∧
    mainExitCode 2 false false true true = 0 :=
  ⟨claimC9_cli_exit_codes.1 1 false false true true (by omega),
   claimC9_cli_exit_codes.2.1 2 false true true (by omega),
   claimC9_cli_exit_codes.2.2.1 2 true true (by omega),
   claimC9_cli_exit_codes.2.2.2.1 2 true (by omega),
   claimC9_cli_exit_codes.2.2.2.2.1 2 (by omega),
   claimC9_cli_exit_codes.2.2.2.2.2 2 (by omega)⟩

/-! ## Claims C1, C4, C10: the handshake state machine -/

/-- Reading into the one-parameter shape exposes the responder's
parameter. -/
theorem readOne_param1 (r : MockResponse) : (readOne r).parameter1 = r.param1 := rfl

/-- ReasonAsError of a plain read is the error naming the response
code. -/
theorem readPlain_reason (r : MockResponse) :
    (readPlain r).ReasonAsError = FujiErr.reason r.code := rfl

/-- ReasonAsError of a one-parameter read is the error naming the
response code. -/
theorem readOne_reason (r : MockResponse) :
    (readOne r).ReasonAsError = FujiErr.reason r.code := rfl

/-- The full run of FujiInitSequence against a six-response script in
which every response is successful: the function returns ok, the
transaction id has been incremented four times, and the trace consists of
the seven requests interleaved with the six reads. -/
theorem fujiInitSequence_success_run (t0 : Nat) (r1 r2 r3 r4 r5 r6 : MockResponse)
    (h1 : (readPlain r1).WasSuccessfull = true)
    (h2 : (readPlain r2).WasSuccessfull = true)
    (h3 : (readOne r3).WasSuccessfull = true)
    (h4 : (readPlain r4).WasSuccessfull = true)
    (h5 : (readPlain r5).WasSuccessfull = true)
    (h6 : (readPlain r6).WasSuccessfull = true) :
    FujiInitSequence t0 [r1, r2, r3, r4, r5, r6] =
      ⟨.ok (),
       incrementTransactionId (incrementTransactionId
         (incrementTransactionId (incrementTransactionId t0))),
       [.send (openSessionPacket t0), .read,
        .send (setInitSeqPacket (incrementTransactionId t0)),
        .send (setInitSeqDataPacket (incrementTransactionId t0)), .read,
        .send (getAppVersionPacket (incrementTransactionId (incrementTransactionId t0))),
        .read, .read,
        .send (setAppVersionPacket (incrementTransactionId
          (incrementTransactionId (incrementTransactionId t0)))),
        .send (setAppVersionDataPacket (incrementTransactionId
          (incrementTransactionId (incrementTransactionId t0))) r3.param1), .read,
        .send (initiateOpenCapturePacket (incrementTransactionId (incrementTransactionId
          (incrementTransactionId (incrementTransactionId t0))))), .read]⟩ := by
  simp [FujiInitSequence, h1, h2, h3, h4, h5, h6, readOne_param1]

/-- FujiInitSequence never emits a close on the sockets, whatever the
responder script: the caller is left to close them. -/
theorem fujiInitSequence_never_closes (t0 : Nat) (script : List MockResponse) :
    ClientEvent.closeConn ∉ (FujiInitSequence t0 script).trace := by
  rcases script with _ | ⟨r1, _ | ⟨r2, _ | ⟨r3, _ | ⟨r4, _ | ⟨r5, _ | ⟨r6, s6⟩⟩⟩⟩⟩⟩ <;>
    simp only [FujiInitSequence] <;>
    first
    | (split_ifs <;> simp)
    | simp

/-- C1: with the scenario-1 mock responder — every one of the six
responses consumed by FujiInitSequence successful — and the TransactionID
equal to 0x00000001 when OpenSession is sent, FujiInitSequence returns ok
with the client TransactionID equal to 5. -/
theorem claimC1_handshake_ends_at_tid_five (r1 r2 r3 r4 r5 r6 : MockResponse)
    (h1 : (readPlain r1).WasSuccessfull = true)
    (h2 : (readPlain r2).WasSuccessfull = true)
    (h3 : (readOne r3).WasSuccessfull = true)
    (h4 : (readPlain r4).WasSuccessfull = true)
    (h5 : (readPlain r5).WasSuccessfull = true)
    (h6 : (readPlain r6).WasSuccessfull = true) :
    (FujiInitSequence 1 [r1, r2, r3, r4, r5, r6]).outcome = .ok () ∧
    (FujiInitSequence 1 [r1, r2, r3, r4, r5, r6]).transactionId = 5 := by
  rw [fujiInitSequence_success_run 1 r1 r2 r3 r4 r5 r6 h1 h2 h3 h4 h5 h6]
  refine ⟨rfl, ?_⟩
  show incrementTransactionId (incrementTransactionId
    (incrementTransactionId (incrementTransactionId 1))) = 5
  decide

/-- C1 witness: the scenario-1 responder script — OK for OpenSession, OK
for the init-sequence property, 0x1015 carrying app version 0x00020001,
OK for its trailing response, OK for the echo and OK for
InitiateOpenCapture — run from TransactionID 1. -/
theorem claimC1_witness :
    (FujiInitSequence 1 [⟨3, 0x2001, 1, 0⟩, ⟨3, 0x2001, 2, 0⟩,
        ⟨3, 0x1015, 3, 0x00020001⟩, ⟨3, 0x2001, 3, 0⟩, ⟨3, 0x2001, 4, 0⟩,
        ⟨3, 0x2001, 5, 0⟩]).outcome = .ok () ∧
    (FujiInitSequence 1 [⟨3, 0x2001, 1, 0⟩, ⟨3, 0x2001, 2, 0⟩,
        ⟨3, 0x1015, 3, 0x00020001⟩, ⟨3, 0x2001, 3, 0⟩, ⟨3, 0x2001, 4, 0⟩,
        ⟨3, 0x2001, 5, 0⟩]).transactionId = 5 :=
  claimC1_handshake_ends_at_tid_five _ _ _ _ _ _
    (by decide) (by decide) (by decide) (by decide) (by decide) (by decide)

/-- C4: whenever a response consumed by FujiInitSequence is not
successful, the function returns at once with the ReasonAsError of that
response (the error naming the response code), having sent no further
packets and performed no further reads, and without closing the sockets
(no close event ever appears in the trace). -/
theorem claimC4_failure_aborts_handshake (t0 : Nat) (r1 r2 r3 r4 r5 r6 : MockResponse) :
    ((readPlain r1).WasSuccessfull = false →
      FujiInitSequence t0 [r1, r2, r3, r4, r5, r6] =
        ⟨.error (.reason r1.code), t0, [.send (openSessionPacket t0), .read]⟩) ∧
    ((readPlain r1).WasSuccessfull = true → (readPlain r2).WasSuccessfull = false →
      FujiInitSequence t0 [r1, r2, r3, r4, r5, r6] =
        ⟨.error (.reason r2.code), incrementTransactionId t0,
         [.send (openSessionPacket t0), .read,
          .send (setInitSeqPacket (incrementTransactionId t0)),
          .send (setInitSeqDataPacket (incrementTransactionId t0)), .read]⟩) ∧
    ((readPlain r1).WasSuccessfull = true → (readPlain r2).WasSuccessfull = true →
      (readOne r3).WasSuccessfull = false →
      FujiInitSequence t0 [r1, r2, r3, r4, r5, r6] =
        ⟨.error (.reason r3.code), incrementTransactionId (incrementTransactionId t0),
         [.send (openSessionPacket t0), .read,
          .send (setInitSeqPacket (incrementTransactionId t0)),
          .send (setInitSeqDataPacket (incrementTransactionId t0)), .read,
          .send (getAppVersionPacket (incrementTransactionId (incrementTransactionId t0))),
          .read]⟩) ∧
    ((readPlain r1).WasSuccessfull = true → (readPlain r2).WasSuccessfull = true →
      (readOne r3).WasSuccessfull = true → (readPlain r4).WasSuccessfull = false →
      FujiInitSequence t0 [r1, r2, r3, r4, r5, r6] =
        ⟨.error (.reason r4.code), incrementTransactionId (incrementTransactionId t0),
         [.send (openSessionPacket t0), .read,
          .send (setInitSeqPacket (incrementTransactionId t0)),
          .send (setInitSeqDataPacket (incrementTransactionId t0)), .read,
          .send (getAppVersionPacket (incrementTransactionId (incrementTransactionId t0))),
          .read, .read]⟩) ∧
    ((readPlain r1).WasSuccessfull = true → (readPlain r2).WasSuccessfull = true →
      (readOne r3).WasSuccessfull = true → (readPlain r4).WasSuccessfull = true →
      (readPlain r5).WasSuccessfull = false →
      FujiInitSequence t0 [r1, r2, r3, r4, r5, r6] =
        ⟨.error (.reason r5.code),
         incrementTransactionId (incrementTransactionId (incrementTransactionId t0)),
         [.send (openSessionPacket t0), .read,
          .send (setInitSeqPacket (incrementTransactionId t0)),
          .send (setInitSeqDataPacket (incrementTransactionId t0)), .read,
          .send (getAppVersionPacket (incrementTransactionId (incrementTransactionId t0))),
          .read, .read,
          .send (setAppVersionPacket (incrementTransactionId
            (incrementTransactionId (incrementTransactionId t0)))),
          .send (setAppVersionDataPacket (incrementTransactionId
            (incrementTransactionId (incrementTransactionId t0))) r3.param1), .read]⟩) ∧
    ((readPlain r1).WasSuccessfull = true → (readPlain r2).WasSuccessfull = true →
      (readOne r3).WasSuccessfull = true → (readPlain r4).WasSuccessfull = true →
      (readPlain r5).WasSuccessfull = true → (readPlain r6).WasSuccessfull = false →
      FujiInitSequence t0 [r1, r2, r3, r4, r5, r6] =
        ⟨.error (.reason r6.code),
         incrementTransactionId (incrementTransactionId
           (incrementTransactionId (incrementTransactionId t0))),
         [.send (openSessionPacket t0), .read,
          .send (setInitSeqPacket (incrementTransactionId t0)),
          .send (setInitSeqDataPacket (incrementTransactionId t0)), .read,
          .send (getAppVersionPacket (incrementTransactionId (incrementTransactionId t0))),
          .read, .read,
          .send (setAppVersionPacket (incrementTransactionId
            (incrementTransactionId (incrementTransactionId t0)))),
          .send (setAppVersionDataPacket (incrementTransactionId
            (incrementTransactionId (incrementTransactionId t0))) r3.param1), .read,
          .send (initiateOpenCapturePacket (incrementTransactionId (incrementTransactionId
            (incrementTransactionId (incrementTransactionId t0))))), .read]⟩) ∧
    ClientEvent.closeConn ∉ (FujiInitSequence t0 [r1, r2, r3, r4, r5, r6]).trace := by
  refine ⟨?_, ?_, ?_, ?_, ?_, ?_, fujiInitSequence_never_closes t0 _⟩
  · intro f1
    simp [FujiInitSequence, f1, readPlain_reason]
  · intro s1 f2
    simp [FujiInitSequence, s1, f2, readPlain_reason]
  · intro s1 s2 f3
    simp [FujiInitSequence, s1, s2, f3, readOne_reason]
  · intro s1 s2 s3 f4
    simp [FujiInitSequence, s1, s2, s3, f4, readPlain_reason, readOne_param1]
  · intro s1 s2 s3 s4 f5
    simp [FujiInitSequence, s1, s2, s3, s4, f5, readPlain_reason, readOne_param1]
  · intro s1 s2 s3 s4 s5 f6
    simp [FujiInitSequence, s1, s2, s3, s4, s5, f6, readPlain_reason, readOne_param1]

/-- C4 witness: a responder that answers the OpenSession request with
FR_Fuji_DeviceBusy (0x2019): FujiInitSequence stops after the single send
and the single read, returning the error naming code 0x2019. -/
theorem claimC4_witness :
    FujiInitSequence 1 [⟨3, 0x2019, 1, 0⟩, ⟨3, 0x2001, 2, 0⟩, ⟨3, 0x1015, 3, 2⟩,
        ⟨3, 0x2001, 3, 0⟩, ⟨3, 0x2001, 4, 0⟩, ⟨3, 0x2001, 5, 0⟩] =
      ⟨.error (.reason 0x2019), 1, [.send (openSessionPacket 1), .read]⟩ :=
  (claimC4_failure_aborts_handshake 1 _ _ _ _ _ _).1 (by decide)

/-- C10: in a fully successful run, after sending the
GetDevicePropValue(0xDF24) request the state machine performs exactly two
reads before its next send — first into the one-parameter response
carrying the app version, then into a plain response; the transaction id
is incremented twice within this step (the echo is sent at t+3 and
InitiateOpenCapture at t+4, where the GetDevicePropValue request was sent
at t+2); and the DataOut echo packet carries the Parameter1 of the first
(one-parameter) response, r3.param1.  All of this is read off the
trace. -/
theorem claimC10_app_version_step_shape (t0 : Nat) (r1 r2 r3 r4 r5 r6 : MockResponse)
    (h1 : (readPlain r1).WasSuccessfull = true)
    (h2 : (readPlain r2).WasSuccessfull = true)
    (h3 : (readOne r3).WasSuccessfull = true)
    (h4 : (readPlain r4).WasSuccessfull = true)
    (h5 : (readPlain r5).WasSuccessfull = true)
    (h6 : (readPlain r6).WasSuccessfull = true) :
    (FujiInitSequence t0 [r1, r2, r3, r4, r5, r6]).trace =
      [.send (openSessionPacket t0), .read,
       .send (setInitSeqPacket (incrementTransactionId t0)),
       .send (setInitSeqDataPacket (incrementTransactionId t0)), .read,
       .send (getAppVersionPacket (incrementTransactionId (incrementTransactionId t0))),
       .read, .read,
       .send (setAppVersionPacket (incrementTransactionId
         (incrementTransactionId (incrementTransactionId t0)))),
       .send (setAppVersionDataPacket (incrementTransactionId
         (incrementTransactionId (incrementTransactionId t0))) r3.param1), .read,
       .send (initiateOpenCapturePacket (incrementTransactionId (incrementTransactionId
         (incrementTransactionId (incrementTransactionId t0))))), .read] := by
  rw [fujiInitSequence_success_run t0 r1 r2 r3 r4 r5 r6 h1 h2 h3 h4 h5 h6]

/-- C10 witness: the scenario-1 script from TransactionID 1; the echo
DataOut packet carries 0x00020001, the Parameter1 of the one-parameter
response. -/
theorem claimC10_witness :
    (FujiInitSequence 1 [⟨3, 0x2001, 1, 0⟩, ⟨3, 0x2001, 2, 0⟩,
        ⟨3, 0x1015, 3, 0x00020001⟩, ⟨3, 0x2001, 3, 0⟩, ⟨3, 0x2001, 4, 0⟩,
        ⟨3, 0x2001, 5, 0⟩]).trace =
      [.send (openSessionPacket 1), .read,
       .send (setInitSeqPacket 2), .send (setInitSeqDataPacket 2), .read,
       .send (getAppVersionPacket 3), .read, .read,
       .send (setAppVersionPacket 4), .send (setAppVersionDataPacket 4 0x00020001), .read,
       .send (initiateOpenCapturePacket 5), .read] :=
  (claimC10_app_version_step_shape 1 _ _ _ _ _ _
    (by decide) (by decide) (by decide) (by decide) (by decide) (by decide)).trans
    (by decide)

end PtpIp
